import Mathlib

/-!
Verification of the model-traffic-generator's endpoint dispatch and
request-shaping logic (`traffic_generator.py`), as a shallow embedding.

Wire payloads are modelled by a small JSON value type; the HTTP transport
and the chat/completions client are modelled as an environment of functions
returning `Except Unit _` (where `.error ()` stands for a raised exception).
Each dispatch function returns its boolean outcome together with the exact
list of requests it sent, so that claims about retries, request targets and
payload shapes can be stated directly.
-/

namespace TrafficGen

/-- JSON values, used for the wire request payloads built by the generator. -/
inductive Json where
  | null : Json
  | jbool : Bool → Json
  | num : Rat → Json
  | str : String → Json
  | arr : List Json → Json
  | obj : List (String × Json) → Json

/-- Field lookup on a JSON object (`none` on non-objects or missing keys). -/
def Json.getField : Json → String → Option Json
  | .obj fs, k => fs.lookup k
  | _, _ => none

/-- The `EndpointInfo` dataclass: metadata of one discovered endpoint. -/
structure EndpointInfo where
  name : String
  namespaceName : String
  url : String
  state : String
  api_standard : String
  task : String
  model_name : String
  has_chat_template : Bool

/-- A raw endpoint record as returned by the directory service
(`response.endpoints` items in `discover_endpoints`). -/
structure RawEndpoint where
  name : String
  namespaceName : String
  url : String
  state : String
  api_standard : String
  task : String
  model_name : String
  has_chat_template : Bool

/-- Conversion of a raw directory record into an `EndpointInfo`,
field for field, as in the loop body of `discover_endpoints`. -/
def toEndpointInfo (r : RawEndpoint) : EndpointInfo :=
  { name := r.name
    namespaceName := r.namespaceName
    url := r.url
    state := r.state
    api_standard := r.api_standard
    task := r.task
    model_name := r.model_name
    has_chat_template := r.has_chat_template }

/-- One choice of a text-generation / chat response; `content` is the
`message.content` (chat) or `text` (completion) field, possibly null. -/
structure TextChoice where
  content : Option String

/-- Response object returned by the OpenAI-client `create` calls:
an optional `choices` list. The client raises on non-2xx statuses, so a
returned response always has a non-error status. -/
structure TextResponse where
  choices : Option (List TextChoice)

/-- One element of the `data` array of an embedding response body; its
`embedding` field is absent (`none`) when the element carries no usable
embedding vector. -/
structure EmbedDatum where
  embedding : Option (List Rat)

/-- Parsed JSON body of a raw-POST response: an object with an optional
`data` array of embedding items. -/
structure EmbedBody where
  data : Option (List EmbedDatum)

/-- Raw HTTP response to `http_client.post`: a status code, and the result
of `.json()` on the body (`.error ()` when the body fails to parse). -/
structure PostResponse where
  status : Nat
  body : Except Unit EmbedBody

/-- The transport environment: the chat-completions client call, the
raw-completions client call (both taking the base URL the client was built
with and the request payload), and the raw `http_client.post` (taking the
target URL and the JSON payload). `.error ()` models a raised exception. -/
structure Transport where
  chatCreate : String → Json → Except Unit TextResponse
  completionCreate : String → Json → Except Unit TextResponse
  post : String → Json → Except Unit PostResponse

/-- A request that was actually sent: target URL and JSON payload. -/
structure SentRequest where
  url : String
  payload : Json

/-! ### Sample corpora (module-level constants of `TrafficGenerator`) -/

def TEXT_GENERATION_PROMPTS : List String :=
  ["What is machine learning?",
   "Explain the concept of neural networks in simple terms.",
   "Write a haiku about artificial intelligence.",
   "What are the benefits of cloud computing?",
   "Describe the difference between supervised and unsupervised learning."]

def CHAT_PROMPTS : List (List Json) :=
  [[Json.obj [("role", Json.str "user"), ("content", Json.str "Hello! How are you?")]],
   [Json.obj [("role", Json.str "user"), ("content", Json.str "What can you help me with today?")]],
   [Json.obj [("role", Json.str "user"), ("content", Json.str "Tell me a fun fact about computers.")]],
   [Json.obj [("role", Json.str "user"), ("content", Json.str "What is your purpose?")]],
   [Json.obj [("role", Json.str "user"), ("content", Json.str "Can you help me write some code?")]]]

def EMBEDDING_TEXTS : List String :=
  ["The quick brown fox jumps over the lazy dog",
   "Machine learning is transforming industries",
   "Cloud computing provides scalable infrastructure",
   "Artificial intelligence is advancing rapidly",
   "Data science combines statistics and programming"]

def RERANK_QUERIES : List (String × List String) :=
  [("What is machine learning?",
    ["Machine learning is a subset of artificial intelligence.",
     "The weather today is sunny and warm.",
     "Neural networks are inspired by biological neurons.",
     "Pizza is a popular Italian food."]),
   ("benefits of cloud computing",
    ["Cloud computing offers scalability and flexibility.",
     "Cats are popular pets around the world.",
     "Cost savings are a major advantage of cloud services.",
     "Mountains are formed by tectonic activity."])]

def VLM_PROMPTS : List String :=
  ["Describe this image in detail.",
   "What do you see in this picture?",
   "What is the main subject of this image?"]

def PLACEHOLDER_IMAGE : String :=
  "iVBORw0KGgoAAAANSUhEUgAAAAEAAAABCAYAAAAfFcSJAAAADUlEQVR42mP8z8DwHwAFBQIAX8jx0gAAAABJRU5ErkJggg=="

/-! ### String helpers

Character-list implementations of the string operations the source uses
(`.upper()`, `.lower()`, `in`, `rsplit("/", 2)`), matching their semantics
on the ASCII data this program handles. -/

/-- Python `s.upper()` (ASCII). -/
def strToUpper (s : String) : String :=
  ⟨s.data.map Char.toUpper⟩

/-- Python `s.lower()` (ASCII). -/
def strToLower (s : String) : String :=
  ⟨s.data.map Char.toLower⟩

/-- Split a character list at every occurrence of `sep`. -/
def splitCharAux (sep : Char) : List Char → List Char → List (List Char)
  | [], cur => [cur.reverse]
  | c :: cs, cur =>
    if c == sep then cur.reverse :: splitCharAux sep cs []
    else splitCharAux sep cs (c :: cur)

/-- Python `s.split("/")`: the slash-separated segments of `s`. -/
def splitSlash (s : String) : List String :=
  (splitCharAux '/' s.data []).map (fun l => ⟨l⟩)

/-- Whether `p` is a prefix of the character list. -/
def charsStartWith : List Char → List Char → Bool
  | _, [] => true
  | [], _ :: _ => false
  | c :: cs, p :: ps => c == p && charsStartWith cs ps

/-- Whether `p` occurs as a contiguous sublist. -/
def charsContain : List Char → List Char → Bool
  | [], p => p.isEmpty
  | c :: cs, p => charsStartWith (c :: cs) p || charsContain cs p

/-- Python `pat in s`: substring containment. -/
def strContainsSub (s pat : String) : Bool :=
  charsContain s.data pat.data

/-- Python `s.rsplit("/", 2)[0]`: everything before the second-to-last
slash, or the whole first segment when there are fewer than two slashes.
Used for `endpoint.url.rsplit("/", 2)[0]`. -/
def rsplitTwoHead (s : String) : String :=
  String.intercalate "/" ((splitSlash s).take (max 1 ((splitSlash s).length - 2)))

/-- The URL with its last two slash-separated segments removed (the
addressing rule as the design document words it). -/
def dropLastTwoSegments (s : String) : String :=
  String.intercalate "/" ((splitSlash s).take ((splitSlash s).length - 2))

/-! ### Request builders -/

/-- Chat-completions payload: `client.chat.completions.create(model=...,
messages=..., max_tokens=..., temperature=0.7)`. -/
def chatPayload (model : String) (messages : List Json) (maxTokens : Nat) : Json :=
  Json.obj [("model", Json.str model),
            ("messages", Json.arr messages),
            ("max_tokens", Json.num maxTokens),
            ("temperature", Json.num (7 / 10 : Rat))]

/-- Raw-completions payload: `client.completions.create(model=...,
prompt=..., max_tokens=..., temperature=0.7)`. -/
def completionPayload (model : String) (prompt : String) (maxTokens : Nat) : Json :=
  Json.obj [("model", Json.str model),
            ("prompt", Json.str prompt),
            ("max_tokens", Json.num maxTokens),
            ("temperature", Json.num (7 / 10 : Rat))]

/-- Embedding payload: `{"model": ..., "input": ..., "input_type": "query"}`. -/
def embedPayload (model : String) (text : String) : Json :=
  Json.obj [("model", Json.str model),
            ("input", Json.str text),
            ("input_type", Json.str "query")]

/-- Primary (NIM-format) rerank payload:
`{"model": ..., "query": {"text": q}, "passages": [{"text": d}, ...]}`. -/
def rerankPrimaryPayload (model query : String) (documents : List String) : Json :=
  Json.obj [("model", Json.str model),
            ("query", Json.obj [("text", Json.str query)]),
            ("passages", Json.arr (documents.map (fun d => Json.obj [("text", Json.str d)])))]

/-- Alternate (OpenAI-like) rerank payload:
`{"model": ..., "query": q, "documents": [d, ...]}`. -/
def rerankAltPayload (model query : String) (documents : List String) : Json :=
  Json.obj [("model", Json.str model),
            ("query", Json.str query),
            ("documents", Json.arr (documents.map Json.str))]

/-- The image content part sent by the VLM builder (placeholder data URI). -/
def imageContentPart : Json :=
  Json.obj [("type", Json.str "image_url"),
            ("image_url", Json.obj [("url",
              Json.str ("data:image/png;base64," ++ PLACEHOLDER_IMAGE))])]

/-- The text content part sent by the VLM builder for non-parse models. -/
def textContentPart (prompt : String) : Json :=
  Json.obj [("type", Json.str "text"), ("text", Json.str prompt)]

/-- Single-message list with image-only content (parse models). -/
def parseModelMessages : List Json :=
  [Json.obj [("role", Json.str "user"),
             ("content", Json.arr [imageContentPart])]]

/-- Single-message list with image-and-text content (regular VLMs). -/
def vlmMessages (prompt : String) : List Json :=
  [Json.obj [("role", Json.str "user"),
             ("content", Json.arr [imageContentPart, textContentPart prompt])]]

/-- VLM chat payload: `create(model=..., messages=..., max_tokens=...)`
(no temperature argument in the VLM path). -/
def vlmPayload (model : String) (messages : List Json) (maxTokens : Nat) : Json :=
  Json.obj [("model", Json.str model),
            ("messages", Json.arr messages),
            ("max_tokens", Json.num maxTokens)]

/-! ### Dispatch functions

Each `_generate_*` function mirrors the corresponding Python method.
`random.choice(xs)` is modelled by indexing with `i % xs.length`, where
`i` is an ambient sample index; the `.error` branches of transport results
correspond to the `except Exception` handlers of the source, which log and
return `False`. Each function also returns the list of requests it sent. -/

/-- Model of `_generate_text_traffic`: chat or raw completion through the OpenAI
client built on `url.rsplit("/", 2)[0]`; any exception yields `false`;
a returned response yields `true` unconditionally. -/
def generateTextTraffic (t : Transport) (maxTokens i : Nat) (ep : EndpointInfo) :
    Bool × List SentRequest :=
  let base := rsplitTwoHead ep.url
  if ep.has_chat_template then
    let messages := CHAT_PROMPTS.getD (i % CHAT_PROMPTS.length) []
    let payload := chatPayload ep.model_name messages maxTokens
    match t.chatCreate base payload with
    | .error _ => (false, [⟨base, payload⟩])
    | .ok _ => (true, [⟨base, payload⟩])
  else
    let prompt := TEXT_GENERATION_PROMPTS.getD (i % TEXT_GENERATION_PROMPTS.length) ""
    let payload := completionPayload ep.model_name prompt maxTokens
    match t.completionCreate base payload with
    | .error _ => (false, [⟨base, payload⟩])
    | .ok _ => (true, [⟨base, payload⟩])

/-- Model of `_generate_embedding_traffic`: raw POST of the embedding payload to the
descriptor's URL. On status 200 the body is parsed; a present non-empty
`data` array has its first element's `embedding` length read for logging
(a missing `embedding` key raises, hence `false`); otherwise `true`.
Non-200 statuses, parse failures and transport exceptions yield `false`. -/
def generateEmbeddingTraffic (t : Transport) (i : Nat) (ep : EndpointInfo) :
    Bool × List SentRequest :=
  let text := EMBEDDING_TEXTS.getD (i % EMBEDDING_TEXTS.length) ""
  let payload := embedPayload ep.model_name text
  let sent : List SentRequest := [⟨ep.url, payload⟩]
  match t.post ep.url payload with
  | .error _ => (false, sent)
  | .ok r =>
    if r.status == 200 then
      match r.body with
      | .error _ => (false, sent)
      | .ok b =>
        match b.data with
        | some (d :: _) => (d.embedding.isSome, sent)
        | _ => (true, sent)
    else (false, sent)

/-- Model of `_generate_rerank_traffic`: POST the primary payload to the
descriptor's URL; on status 200 succeed; on any other status POST the
alternate payload once and succeed iff it returns 200; a transport
exception at any point yields `false` with no further attempt. -/
def generateRerankTraffic (t : Transport) (i : Nat) (ep : EndpointInfo) :
    Bool × List SentRequest :=
  let sample := RERANK_QUERIES.getD (i % RERANK_QUERIES.length) ("", [])
  let p1 := rerankPrimaryPayload ep.model_name sample.1 sample.2
  match t.post ep.url p1 with
  | .error _ => (false, [⟨ep.url, p1⟩])
  | .ok r1 =>
    if r1.status == 200 then (true, [⟨ep.url, p1⟩])
    else
      let p2 := rerankAltPayload ep.model_name sample.1 sample.2
      match t.post ep.url p2 with
      | .error _ => (false, [⟨ep.url, p1⟩, ⟨ep.url, p2⟩])
      | .ok r2 => (r2.status == 200, [⟨ep.url, p1⟩, ⟨ep.url, p2⟩])

/-- Model of `_generate_vlm_traffic`: chat completion through the OpenAI client on
`url.rsplit("/", 2)[0]`; image-only content when the lowercased model name
contains `"parse"`, image-plus-text otherwise; any exception yields
`false`, a returned response yields `true` unconditionally. -/
def generateVlmTraffic (t : Transport) (maxTokens i : Nat) (ep : EndpointInfo) :
    Bool × List SentRequest :=
  let base := rsplitTwoHead ep.url
  let messages :=
    if strContainsSub (strToLower ep.model_name) "parse" then parseModelMessages
    else vlmMessages (VLM_PROMPTS.getD (i % VLM_PROMPTS.length) "")
  let payload := vlmPayload ep.model_name messages maxTokens
  match t.chatCreate base payload with
  | .error _ => (false, [⟨base, payload⟩])
  | .ok _ => (true, [⟨base, payload⟩])

/-- Model of `generate_traffic_for_endpoint`: uppercase the task and route to the
per-task generator; SPEECH_TO_TEXT, TEXT_TO_SPEECH and INFERENCE are
skipped as successes; unknown tasks are failures. No request is sent in
either of the last two cases. -/
def generateTrafficForEndpoint (t : Transport) (maxTokens i : Nat) (ep : EndpointInfo) :
    Bool × List SentRequest :=
  let task := strToUpper ep.task
  if task == "TEXT_GENERATION" || task == "TEXT_TO_TEXT_GENERATION" then
    generateTextTraffic t maxTokens i ep
  else if task == "EMBED" then
    generateEmbeddingTraffic t i ep
  else if task == "RANK" then
    generateRerankTraffic t i ep
  else if task == "IMAGE_TEXT_TO_TEXT" then
    generateVlmTraffic t maxTokens i ep
  else if task == "OBJECT_DETECTION" then
    generateVlmTraffic t maxTokens i ep
  else if task == "SPEECH_TO_TEXT" then
    (true, [])
  else if task == "TEXT_TO_SPEECH" then
    (true, [])
  else if task == "INFERENCE" then
    (true, [])
  else
    (false, [])

/-! ### Discovery -/

/-- The state filter of `discover_endpoints`:
`ep.state.lower() in ["running", "loaded"]`. -/
def stateAdmitted (st : String) : Bool :=
  strToLower st == "running" || strToLower st == "loaded"

/-- The accumulation loop of `discover_endpoints`: append the converted
record when its state is admitted, skip it otherwise. -/
def discoverLoop : List RawEndpoint → List EndpointInfo → List EndpointInfo
  | [], acc => acc
  | r :: rs, acc =>
    if stateAdmitted r.state then discoverLoop rs (acc ++ [toEndpointInfo r])
    else discoverLoop rs acc

/-- Model of `discover_endpoints`: the directory-service call either raises
(`.error`, absorbed into an empty result) or returns a record list that is
filtered by state and converted in order. -/
def discoverEndpoints (response : Except Unit (List RawEndpoint)) : List EndpointInfo :=
  match response with
  | .error _ => []
  | .ok eps => discoverLoop eps []

/-! ### Derived views and claim-side predicates -/

/-- Whether an `Except` result is a normal return. -/
def exceptOk {α : Type} : Except Unit α → Bool
  | .ok _ => true
  | .error _ => false

/-- The client call a text dispatch performs (same selection of client
method, base URL and payload as `generateTextTraffic`). -/
def textCallResult (t : Transport) (maxTokens i : Nat) (ep : EndpointInfo) :
    Except Unit TextResponse :=
  if ep.has_chat_template then
    t.chatCreate (rsplitTwoHead ep.url)
      (chatPayload ep.model_name (CHAT_PROMPTS.getD (i % CHAT_PROMPTS.length) []) maxTokens)
  else
    t.completionCreate (rsplitTwoHead ep.url)
      (completionPayload ep.model_name
        (TEXT_GENERATION_PROMPTS.getD (i % TEXT_GENERATION_PROMPTS.length) "") maxTokens)

/-- The text-dispatch outcome as the design document words it: non-error
status and, when a `choices` field is present, at least one choice. -/
def textOutcomeClaimed (r : Except Unit TextResponse) : Bool :=
  match r with
  | .error _ => false
  | .ok resp =>
    match resp.choices with
    | none => true
    | some cs => !cs.isEmpty

/-- The embedding payload a dispatch with sample index `i` sends. -/
def embedPayloadOf (i : Nat) (ep : EndpointInfo) : Json :=
  embedPayload ep.model_name (EMBEDDING_TEXTS.getD (i % EMBEDDING_TEXTS.length) "")

/-- What the source's embedding success path accepts in a parsed 200 body:
when the `data` array is present and non-empty, its first element must
carry an `embedding` value (otherwise the logging access raises). -/
def embedBodyAccepted (b : EmbedBody) : Bool :=
  match b.data with
  | some (d :: _) => d.embedding.isSome
  | _ => true

/-- The embedding-dispatch outcome as the design document words it:
HTTP status 200 and, when a `data` array is present, it is non-empty. -/
def embedOutcomeClaimed (r : Except Unit PostResponse) : Bool :=
  match r with
  | .error _ => false
  | .ok resp =>
    (resp.status == 200) &&
      (match resp.body with
       | .ok b =>
         (match b.data with
          | some l => !l.isEmpty
          | none => true)
       | .error _ => true)

/-- The payload a text dispatch with sample index `i` sends. -/
def textPayloadOf (maxTokens i : Nat) (ep : EndpointInfo) : Json :=
  if ep.has_chat_template then
    chatPayload ep.model_name (CHAT_PROMPTS.getD (i % CHAT_PROMPTS.length) []) maxTokens
  else
    completionPayload ep.model_name
      (TEXT_GENERATION_PROMPTS.getD (i % TEXT_GENERATION_PROMPTS.length) "") maxTokens

/-- The message list a VLM dispatch with sample index `i` sends. -/
def vlmMessagesOf (i : Nat) (ep : EndpointInfo) : List Json :=
  if strContainsSub (strToLower ep.model_name) "parse" then parseModelMessages
  else vlmMessages (VLM_PROMPTS.getD (i % VLM_PROMPTS.length) "")

/-- The payload a VLM dispatch with sample index `i` sends. -/
def vlmPayloadOf (maxTokens i : Nat) (ep : EndpointInfo) : Json :=
  vlmPayload ep.model_name (vlmMessagesOf i ep) maxTokens

/-- The primary-shape rerank payload a dispatch with sample index `i` sends. -/
def rerankPrimaryOf (i : Nat) (ep : EndpointInfo) : Json :=
  let sample := RERANK_QUERIES.getD (i % RERANK_QUERIES.length) ("", [])
  rerankPrimaryPayload ep.model_name sample.1 sample.2

/-- The alternate-shape rerank payload a dispatch with sample index `i` sends. -/
def rerankAltOf (i : Nat) (ep : EndpointInfo) : Json :=
  let sample := RERANK_QUERIES.getD (i % RERANK_QUERIES.length) ("", [])
  rerankAltPayload ep.model_name sample.1 sample.2

/-! ### Concrete environments for witnesses and counterexamples -/

/-- A transport on which every call raises. -/
def allErrorTransport : Transport :=
  { chatCreate := fun _ _ => Except.error ()
    completionCreate := fun _ _ => Except.error ()
    post := fun _ _ => Except.error () }

/-- A transport whose client calls return a response with `choices = []`. -/
def emptyChoicesTransport : Transport :=
  { chatCreate := fun _ _ => Except.ok ⟨some []⟩
    completionCreate := fun _ _ => Except.ok ⟨some []⟩
    post := fun _ _ => Except.error () }

/-- A transport whose raw POSTs return status 200 with body `{"data": []}`. -/
def emptyDataTransport : Transport :=
  { chatCreate := fun _ _ => Except.error ()
    completionCreate := fun _ _ => Except.error ()
    post := fun _ _ => Except.ok ⟨200, Except.ok ⟨some []⟩⟩ }

/-- A transport whose raw POSTs return status 500 with an unparseable body. -/
def status500Transport : Transport :=
  { chatCreate := fun _ _ => Except.error ()
    completionCreate := fun _ _ => Except.error ()
    post := fun _ _ => Except.ok ⟨500, Except.error ()⟩ }

/-- A transport whose calls all return empty successful responses. -/
def okTransport : Transport :=
  { chatCreate := fun _ _ => Except.ok ⟨none⟩
    completionCreate := fun _ _ => Except.ok ⟨none⟩
    post := fun _ _ => Except.ok ⟨200, Except.ok ⟨none⟩⟩ }

/-- A chat-template text-generation endpoint used in concrete instances. -/
def textEndpoint : EndpointInfo :=
  { name := "text-ep", namespaceName := "serving-default"
    url := "https://host.example.com/namespaces/serving-default/endpoints/text-ep/v1/chat/completions"
    state := "Loaded", api_standard := "openai", task := "TEXT_GENERATION"
    model_name := "llama-3", has_chat_template := true }

/-- An embedding endpoint used in concrete instances. -/
def embedEndpoint : EndpointInfo :=
  { name := "embed-ep", namespaceName := "serving-default"
    url := "https://host.example.com/namespaces/serving-default/endpoints/embed-ep/v1/embeddings"
    state := "Running", api_standard := "openai", task := "EMBED"
    model_name := "embed-1", has_chat_template := false }

/-- A rerank endpoint used in concrete instances. -/
def rankEndpoint : EndpointInfo :=
  { name := "rank-ep", namespaceName := "serving-default"
    url := "https://host.example.com/namespaces/serving-default/endpoints/rank-ep/v1/ranking"
    state := "Running", api_standard := "nim", task := "RANK"
    model_name := "rerank-1", has_chat_template := false }

/-- A vision-language endpoint used in concrete instances. -/
def vlmEndpoint : EndpointInfo :=
  { name := "vlm-ep", namespaceName := "serving-default"
    url := "https://host.example.com/namespaces/serving-default/endpoints/vlm-ep/v1/chat/completions"
    state := "Running", api_standard := "openai", task := "IMAGE_TEXT_TO_TEXT"
    model_name := "pixtral", has_chat_template := true }

/-- A speech-to-text endpoint used in concrete instances. -/
def sttEndpoint : EndpointInfo :=
  { name := "stt-ep", namespaceName := "serving-default"
    url := "https://host.example.com/namespaces/serving-default/endpoints/stt-ep/v1/audio"
    state := "Running", api_standard := "openai", task := "SPEECH_TO_TEXT"
    model_name := "whisper", has_chat_template := false }

/-- An endpoint with an unrecognized task string. -/
def fooEndpoint : EndpointInfo :=
  { name := "foo-ep", namespaceName := "serving-default"
    url := "https://host.example.com/namespaces/serving-default/endpoints/foo-ep/v1/foo"
    state := "Running", api_standard := "openai", task := "FOO"
    model_name := "foo-model", has_chat_template := false }

/-! ## Theorems -/

/-- The discovery accumulation loop collects exactly the admitted records,
converted in order, after the accumulator. -/
theorem discoverLoop_eq_filter (rs : List RawEndpoint) (acc : List EndpointInfo) :
    discoverLoop rs acc =
      acc ++ (rs.filter (fun r => stateAdmitted r.state)).map toEndpointInfo := by
  induction rs generalizing acc with
  | nil => simp [discoverLoop]
  | cons r rs ih =>
    by_cases h : stateAdmitted r.state
    · simp [discoverLoop, h, ih]
    · simp [discoverLoop, h, ih]

/-- C6: `discover` returns exactly the records whose state, lowercased, is
`"running"` or `"loaded"`, converted to descriptors in the order the
service returned them, and returns the empty list when the service call
raises. -/
theorem discover_filters_states_and_absorbs_errors (eps : List RawEndpoint) :
    discoverEndpoints (Except.error ()) = [] ∧
    discoverEndpoints (Except.ok eps) =
      (eps.filter (fun r =>
        strToLower r.state == "running" || strToLower r.state == "loaded")).map toEndpointInfo := by
  refine ⟨rfl, ?_⟩
  simpa [discoverEndpoints, stateAdmitted] using discoverLoop_eq_filter eps []

/-- Concrete instance of the discovery theorem: one running, one failed and
one loaded record yield the first and third descriptors, in order. -/
theorem discover_filters_states_witness :
    discoverEndpoints (Except.ok
      [{ name := "a", namespaceName := "ns", url := "u1", state := "Running",
         api_standard := "openai", task := "EMBED", model_name := "m1",
         has_chat_template := false },
       { name := "b", namespaceName := "ns", url := "u2", state := "Failed",
         api_standard := "openai", task := "EMBED", model_name := "m2",
         has_chat_template := false },
       { name := "c", namespaceName := "ns", url := "u3", state := "loaded",
         api_standard := "openai", task := "RANK", model_name := "m3",
         has_chat_template := false }]) =
      [{ name := "a", namespaceName := "ns", url := "u1", state := "Running",
         api_standard := "openai", task := "EMBED", model_name := "m1",
         has_chat_template := false },
       { name := "c", namespaceName := "ns", url := "u3", state := "loaded",
         api_standard := "openai", task := "RANK", model_name := "m3",
         has_chat_template := false }] := by
  have h := (discover_filters_states_and_absorbs_errors
    [{ name := "a", namespaceName := "ns", url := "u1", state := "Running",
       api_standard := "openai", task := "EMBED", model_name := "m1",
       has_chat_template := false },
     { name := "b", namespaceName := "ns", url := "u2", state := "Failed",
       api_standard := "openai", task := "EMBED", model_name := "m2",
       has_chat_template := false },
     { name := "c", namespaceName := "ns", url := "u3", state := "loaded",
       api_standard := "openai", task := "RANK", model_name := "m3",
       has_chat_template := false }]).2
  rw [h]
  rfl

/-- C10: dispatches whose uppercased task is SPEECH_TO_TEXT, TEXT_TO_SPEECH
or INFERENCE send nothing and succeed; dispatches whose task matches no
recognized task name send nothing and fail. -/
theorem skip_tasks_succeed_unknown_tasks_fail (t : Transport) (maxTokens i : Nat)
    (ep : EndpointInfo) :
    (strToUpper ep.task ∈ ["SPEECH_TO_TEXT", "TEXT_TO_SPEECH", "INFERENCE"] →
      generateTrafficForEndpoint t maxTokens i ep = (true, [])) ∧
    (strToUpper ep.task ∉ ["TEXT_GENERATION", "TEXT_TO_TEXT_GENERATION", "EMBED", "RANK",
        "IMAGE_TEXT_TO_TEXT", "OBJECT_DETECTION", "SPEECH_TO_TEXT", "TEXT_TO_SPEECH",
        "INFERENCE"] →
      generateTrafficForEndpoint t maxTokens i ep = (false, [])) := by
  constructor
  · intro h
    simp only [List.mem_cons, List.not_mem_nil, or_false] at h
    rcases h with h | h | h <;> simp [generateTrafficForEndpoint, h]
  · intro h
    simp only [List.mem_cons, List.not_mem_nil, or_false, not_or] at h
    obtain ⟨h1, h2, h3, h4, h5, h6, h7, h8, h9⟩ := h
    simp [generateTrafficForEndpoint, h1, h2, h3, h4, h5, h6, h7, h8, h9]

/-- Concrete instance: a SPEECH_TO_TEXT endpoint sends nothing and
succeeds; a task string `"FOO"` sends nothing and fails. -/
theorem skip_tasks_succeed_unknown_tasks_fail_witness :
    generateTrafficForEndpoint okTransport 50 0 sttEndpoint = (true, []) ∧
    generateTrafficForEndpoint okTransport 50 0 fooEndpoint = (false, []) := by
  refine ⟨?_, ?_⟩
  · exact (skip_tasks_succeed_unknown_tasks_fail okTransport 50 0 sttEndpoint).1 (by decide)
  · exact (skip_tasks_succeed_unknown_tasks_fail okTransport 50 0 fooEndpoint).2 (by decide)

/-- A text dispatch whose client call raises has a false outcome. -/
theorem generateTextTraffic_error (t : Transport) (maxTokens i : Nat) (ep : EndpointInfo)
    (hc : ∀ u p, t.chatCreate u p = Except.error ())
    (hk : ∀ u p, t.completionCreate u p = Except.error ()) :
    (generateTextTraffic t maxTokens i ep).1 = false := by
  unfold generateTextTraffic
  by_cases h : ep.has_chat_template <;> simp [h, hc, hk]

/-- An embedding dispatch whose POST raises has a false outcome. -/
theorem generateEmbeddingTraffic_error (t : Transport) (i : Nat) (ep : EndpointInfo)
    (hp : ∀ u p, t.post u p = Except.error ()) :
    (generateEmbeddingTraffic t i ep).1 = false := by
  unfold generateEmbeddingTraffic
  simp [hp]

/-- A rerank dispatch whose POSTs raise has a false outcome. -/
theorem generateRerankTraffic_error (t : Transport) (i : Nat) (ep : EndpointInfo)
    (hp : ∀ u p, t.post u p = Except.error ()) :
    (generateRerankTraffic t i ep).1 = false := by
  unfold generateRerankTraffic
  simp [hp]

/-- A VLM dispatch whose client call raises has a false outcome. -/
theorem generateVlmTraffic_error (t : Transport) (maxTokens i : Nat) (ep : EndpointInfo)
    (hc : ∀ u p, t.chatCreate u p = Except.error ()) :
    (generateVlmTraffic t maxTokens i ep).1 = false := by
  unfold generateVlmTraffic
  simp [hc]

/-- C7: dispatch is a total boolean function, and every exception raised
while sending is absorbed into a false outcome: under a transport on which
every call raises, the outcome is true exactly for the skipped task kinds
(which send nothing), and false for every other descriptor. -/
theorem dispatch_absorbs_exceptions (t : Transport) (maxTokens i : Nat) (ep : EndpointInfo)
    (hc : ∀ u p, t.chatCreate u p = Except.error ())
    (hk : ∀ u p, t.completionCreate u p = Except.error ())
    (hp : ∀ u p, t.post u p = Except.error ()) :
    (generateTrafficForEndpoint t maxTokens i ep).1 = true ↔
      strToUpper ep.task ∈ ["SPEECH_TO_TEXT", "TEXT_TO_SPEECH", "INFERENCE"] := by
  simp only [generateTrafficForEndpoint]
  split_ifs with h1 h2 h3 h4 h5 h6 h7 h8
  · rw [generateTextTraffic_error t maxTokens i ep hc hk]
    simp only [Bool.or_eq_true, beq_iff_eq] at h1
    rcases h1 with h | h <;> simp [h]
  · rw [generateEmbeddingTraffic_error t i ep hp]
    simp only [beq_iff_eq] at h2
    simp [h2]
  · rw [generateRerankTraffic_error t i ep hp]
    simp only [beq_iff_eq] at h3
    simp [h3]
  · rw [generateVlmTraffic_error t maxTokens i ep hc]
    simp only [beq_iff_eq] at h4
    simp [h4]
  · rw [generateVlmTraffic_error t maxTokens i ep hc]
    simp only [beq_iff_eq] at h5
    simp [h5]
  · simp only [beq_iff_eq] at h6
    simp [h6]
  · simp only [beq_iff_eq] at h7
    simp [h7]
  · simp only [beq_iff_eq] at h8
    simp [h8]
  · simp only [beq_iff_eq] at h6 h7 h8
    simp [h6, h7, h8]

/-- Concrete instance: under the all-raising transport, an EMBED endpoint
fails and a SPEECH_TO_TEXT endpoint still succeeds. -/
theorem dispatch_absorbs_exceptions_witness :
    ((generateTrafficForEndpoint allErrorTransport 50 0 embedEndpoint).1 = true ↔
      strToUpper embedEndpoint.task ∈ ["SPEECH_TO_TEXT", "TEXT_TO_SPEECH", "INFERENCE"]) ∧
    ((generateTrafficForEndpoint allErrorTransport 50 0 sttEndpoint).1 = true ↔
      strToUpper sttEndpoint.task ∈ ["SPEECH_TO_TEXT", "TEXT_TO_SPEECH", "INFERENCE"]) :=
  ⟨dispatch_absorbs_exceptions allErrorTransport 50 0 embedEndpoint
      (fun _ _ => rfl) (fun _ _ => rfl) (fun _ _ => rfl),
   dispatch_absorbs_exceptions allErrorTransport 50 0 sttEndpoint
      (fun _ _ => rfl) (fun _ _ => rfl) (fun _ _ => rfl)⟩

/-- Routing: a TEXT_GENERATION or TEXT_TO_TEXT_GENERATION task dispatches
to the text generator. -/
theorem dispatch_text_route (t : Transport) (maxTokens i : Nat) (ep : EndpointInfo)
    (h : strToUpper ep.task = "TEXT_GENERATION" ∨
         strToUpper ep.task = "TEXT_TO_TEXT_GENERATION") :
    generateTrafficForEndpoint t maxTokens i ep = generateTextTraffic t maxTokens i ep := by
  rcases h with h | h <;> simp [generateTrafficForEndpoint, h]

/-- Routing: an EMBED task dispatches to the embedding generator. -/
theorem dispatch_embed_route (t : Transport) (maxTokens i : Nat) (ep : EndpointInfo)
    (h : strToUpper ep.task = "EMBED") :
    generateTrafficForEndpoint t maxTokens i ep = generateEmbeddingTraffic t i ep := by
  simp [generateTrafficForEndpoint, h]

/-- Routing: a RANK task dispatches to the rerank generator. -/
theorem dispatch_rank_route (t : Transport) (maxTokens i : Nat) (ep : EndpointInfo)
    (h : strToUpper ep.task = "RANK") :
    generateTrafficForEndpoint t maxTokens i ep = generateRerankTraffic t i ep := by
  simp [generateTrafficForEndpoint, h]

/-- Routing: an IMAGE_TEXT_TO_TEXT or OBJECT_DETECTION task dispatches to
the VLM generator. -/
theorem dispatch_vlm_route (t : Transport) (maxTokens i : Nat) (ep : EndpointInfo)
    (h : strToUpper ep.task = "IMAGE_TEXT_TO_TEXT" ∨
         strToUpper ep.task = "OBJECT_DETECTION") :
    generateTrafficForEndpoint t maxTokens i ep = generateVlmTraffic t maxTokens i ep := by
  rcases h with h | h <;> simp [generateTrafficForEndpoint, h]

/-- C1 (amended): the outcome of a text-generation dispatch is true iff the
client call returns without an exception; the `choices` content of the
response is consulted only for debug logging and does not affect the
outcome. -/
theorem text_outcome_is_call_ok (t : Transport) (maxTokens i : Nat) (ep : EndpointInfo)
    (h : strToUpper ep.task = "TEXT_GENERATION" ∨
         strToUpper ep.task = "TEXT_TO_TEXT_GENERATION") :
    (generateTrafficForEndpoint t maxTokens i ep).1 =
      exceptOk (textCallResult t maxTokens i ep) := by
  rw [dispatch_text_route t maxTokens i ep h]
  unfold generateTextTraffic textCallResult
  by_cases hct : ep.has_chat_template <;>
    simp only [hct, if_true, if_false, Bool.false_eq_true] <;>
    split <;> simp_all [exceptOk]

/-- Concrete instance of the amended text-outcome theorem. -/
theorem text_outcome_is_call_ok_witness :
    (generateTrafficForEndpoint okTransport 50 0 textEndpoint).1 =
      exceptOk (textCallResult okTransport 50 0 textEndpoint) :=
  text_outcome_is_call_ok okTransport 50 0 textEndpoint (Or.inl rfl)

/-- C1 counterexample: a chat dispatch whose response returns normally with
a present but empty `choices` list still has outcome true, whereas the
claim assigns it outcome false. -/
theorem text_empty_choices_counterexample :
    (generateTrafficForEndpoint emptyChoicesTransport 50 0 textEndpoint).1 = true ∧
    textCallResult emptyChoicesTransport 50 0 textEndpoint = Except.ok ⟨some []⟩ ∧
    textOutcomeClaimed (Except.ok ⟨some []⟩) = false :=
  ⟨rfl, rfl, rfl⟩

/-- C2 (amended): the outcome of an EMBED dispatch is true iff the POST to
the descriptor's URL returns a response with status 200 whose body parses
as JSON and whose `data` array, when present and non-empty, has a first
element carrying an `embedding` value; an empty `data` array is accepted. -/
theorem generateEmbeddingTraffic_eq (t : Transport) (i : Nat) (ep : EndpointInfo) :
    generateEmbeddingTraffic t i ep =
      (match t.post ep.url (embedPayloadOf i ep) with
       | .error _ => (false, [⟨ep.url, embedPayloadOf i ep⟩])
       | .ok r =>
         if r.status == 200 then
           match r.body with
           | .error _ => (false, [⟨ep.url, embedPayloadOf i ep⟩])
           | .ok b =>
             match b.data with
             | some (d :: _) => (d.embedding.isSome, [⟨ep.url, embedPayloadOf i ep⟩])
             | _ => (true, [⟨ep.url, embedPayloadOf i ep⟩])
         else (false, [⟨ep.url, embedPayloadOf i ep⟩])) := rfl

theorem embed_outcome_characterization (t : Transport) (maxTokens i : Nat) (ep : EndpointInfo)
    (h : strToUpper ep.task = "EMBED") :
    ((generateTrafficForEndpoint t maxTokens i ep).1 = true ↔
      ∃ r b, t.post ep.url (embedPayloadOf i ep) = Except.ok r ∧ r.status = 200 ∧
        r.body = Except.ok b ∧ embedBodyAccepted b = true) := by
  rw [dispatch_embed_route t maxTokens i ep h, generateEmbeddingTraffic_eq]
  cases hres : t.post ep.url (embedPayloadOf i ep) with
  | error e => simp [hres]
  | ok r =>
    simp only [hres]
    by_cases hs : r.status = 200
    · have hs' : (r.status == 200) = true := by simpa using hs
      simp only [hs', if_true]
      cases hb : r.body with
      | error e => simp [hb, hs]
      | ok b =>
        rcases hdata : b.data with _ | (_ | ⟨d, ds⟩) <;>
          simp [embedBodyAccepted, hdata, hb, hs]
    · have hs' : (r.status == 200) = false := by simpa using hs
      simp [hs', hs]

/-- Concrete instance of the amended embedding-outcome theorem. -/
theorem embed_outcome_characterization_witness :
    ((generateTrafficForEndpoint emptyDataTransport 50 0 embedEndpoint).1 = true ↔
      ∃ r b, emptyDataTransport.post embedEndpoint.url (embedPayloadOf 0 embedEndpoint) =
          Except.ok r ∧ r.status = 200 ∧
        r.body = Except.ok b ∧ embedBodyAccepted b = true) :=
  embed_outcome_characterization emptyDataTransport 50 0 embedEndpoint rfl

/-- C2 counterexample: an EMBED dispatch answered with status 200 and body
`{"data": []}` has outcome true, whereas the claim assigns a 200 response
with an empty `data` array outcome false. -/
theorem embed_empty_data_counterexample :
    (generateTrafficForEndpoint emptyDataTransport 50 0 embedEndpoint).1 = true ∧
    emptyDataTransport.post embedEndpoint.url (embedPayloadOf 0 embedEndpoint) =
      Except.ok ⟨200, Except.ok ⟨some []⟩⟩ ∧
    embedOutcomeClaimed (Except.ok ⟨200, Except.ok ⟨some []⟩⟩) = false :=
  ⟨rfl, rfl, rfl⟩

/-- Unfolding of the rerank generator in terms of the two payload views. -/
theorem generateRerankTraffic_eq (t : Transport) (i : Nat) (ep : EndpointInfo) :
    generateRerankTraffic t i ep =
      (match t.post ep.url (rerankPrimaryOf i ep) with
       | .error _ => (false, [⟨ep.url, rerankPrimaryOf i ep⟩])
       | .ok r1 =>
         if r1.status == 200 then (true, [⟨ep.url, rerankPrimaryOf i ep⟩])
         else
           match t.post ep.url (rerankAltOf i ep) with
           | .error _ =>
             (false, [⟨ep.url, rerankPrimaryOf i ep⟩, ⟨ep.url, rerankAltOf i ep⟩])
           | .ok r2 =>
             (r2.status == 200,
              [⟨ep.url, rerankPrimaryOf i ep⟩, ⟨ep.url, rerankAltOf i ep⟩])) := rfl

/-- C3: when the primary-shape POST of a RANK dispatch returns a status
other than 200, exactly one alternate-shape POST is issued to the same URL
before an outcome is declared, and the outcome is true iff one of the two
attempts returned status 200. -/
theorem rerank_fallback_exactly_once (t : Transport) (maxTokens i : Nat) (ep : EndpointInfo)
    (r1 : PostResponse)
    (htask : strToUpper ep.task = "RANK")
    (h1 : t.post ep.url (rerankPrimaryOf i ep) = Except.ok r1)
    (hs : r1.status ≠ 200) :
    (generateTrafficForEndpoint t maxTokens i ep).2 =
      [⟨ep.url, rerankPrimaryOf i ep⟩, ⟨ep.url, rerankAltOf i ep⟩] ∧
    ((generateTrafficForEndpoint t maxTokens i ep).1 = true ↔
      (r1.status = 200 ∨
        ∃ r2, t.post ep.url (rerankAltOf i ep) = Except.ok r2 ∧ r2.status = 200)) := by
  rw [dispatch_rank_route t maxTokens i ep htask, generateRerankTraffic_eq, h1]
  have hs' : (r1.status == 200) = false := by simpa using hs
  simp only [hs', Bool.false_eq_true, if_false]
  cases h2 : t.post ep.url (rerankAltOf i ep) with
  | error e => simp [hs]
  | ok r2 => simp [hs]

/-- Concrete instance: a primary POST answered 500 is followed by exactly
one alternate POST (here also failing), and the outcome is false. -/
theorem rerank_fallback_exactly_once_witness :
    (generateTrafficForEndpoint status500Transport 50 0 rankEndpoint).2 =
      [⟨rankEndpoint.url, rerankPrimaryOf 0 rankEndpoint⟩,
       ⟨rankEndpoint.url, rerankAltOf 0 rankEndpoint⟩] ∧
    ((generateTrafficForEndpoint status500Transport 50 0 rankEndpoint).1 = true ↔
      ((500 : Nat) = 200 ∨
        ∃ r2, status500Transport.post rankEndpoint.url (rerankAltOf 0 rankEndpoint) =
            Except.ok r2 ∧ r2.status = 200)) :=
  rerank_fallback_exactly_once status500Transport 50 0 rankEndpoint
    ⟨500, Except.error ()⟩ rfl rfl (by decide)

/-- C8: when the primary-shape POST of a RANK dispatch raises a transport
exception, no alternate-shape POST is attempted: the dispatch sends exactly
the one primary request and its outcome is false. -/
theorem rerank_no_fallback_on_exception (t : Transport) (maxTokens i : Nat)
    (ep : EndpointInfo)
    (htask : strToUpper ep.task = "RANK")
    (h1 : t.post ep.url (rerankPrimaryOf i ep) = Except.error ()) :
    generateTrafficForEndpoint t maxTokens i ep =
      (false, [⟨ep.url, rerankPrimaryOf i ep⟩]) := by
  rw [dispatch_rank_route t maxTokens i ep htask, generateRerankTraffic_eq, h1]

/-- Concrete instance: under the all-raising transport a RANK dispatch
sends only the primary request and fails. -/
theorem rerank_no_fallback_on_exception_witness :
    generateTrafficForEndpoint allErrorTransport 50 0 rankEndpoint =
      (false, [⟨rankEndpoint.url, rerankPrimaryOf 0 rankEndpoint⟩]) :=
  rerank_no_fallback_on_exception allErrorTransport 50 0 rankEndpoint rfl rfl

/-- Every chat-prompt sample is a single message of role `user`. -/
theorem chatPrompt_singleton_user (i : Nat) :
    ∃ m, CHAT_PROMPTS.getD (i % CHAT_PROMPTS.length) [] = [m] ∧
      m.getField "role" = some (Json.str "user") := by
  have h5 : CHAT_PROMPTS.length = 5 := rfl
  rw [h5]
  rcases (show i % 5 = 0 ∨ i % 5 = 1 ∨ i % 5 = 2 ∨ i % 5 = 3 ∨ i % 5 = 4 by omega)
    with h | h | h | h | h <;> rw [h] <;> exact ⟨_, rfl, rfl⟩

/-- Field views of the chat payload. -/
theorem chatPayload_fields (model : String) (msgs : List Json) (mt : Nat) :
    (chatPayload model msgs mt).getField "messages" = some (Json.arr msgs) ∧
    (chatPayload model msgs mt).getField "prompt" = none := ⟨rfl, rfl⟩

/-- Field views of the raw-completion payload. -/
theorem completionPayload_fields (model p : String) (mt : Nat) :
    (completionPayload model p mt).getField "prompt" = some (Json.str p) ∧
    (completionPayload model p mt).getField "messages" = none := ⟨rfl, rfl⟩

/-- A text dispatch sends exactly one request, to the two-segment-stripped
base URL, with the payload selected by `has_chat_template`. -/
theorem generateTextTraffic_trace (t : Transport) (maxTokens i : Nat) (ep : EndpointInfo) :
    (generateTextTraffic t maxTokens i ep).2 =
      [⟨rsplitTwoHead ep.url, textPayloadOf maxTokens i ep⟩] := by
  unfold generateTextTraffic textPayloadOf
  by_cases h : ep.has_chat_template <;>
    simp only [h, if_true, if_false, Bool.false_eq_true] <;> split <;> rfl

/-- C4: a chat-template text build sends a payload carrying a `messages`
field with exactly one user-role entry and no `prompt` field; a
non-chat-template build sends a `prompt` string and no `messages` field. -/
theorem text_request_shape (t : Transport) (maxTokens i : Nat) (ep : EndpointInfo) :
    ∃ p, (generateTextTraffic t maxTokens i ep).2 = [⟨rsplitTwoHead ep.url, p⟩] ∧
      (if ep.has_chat_template then
        (∃ m, p.getField "messages" = some (Json.arr [m]) ∧
           m.getField "role" = some (Json.str "user")) ∧
        p.getField "prompt" = none
       else
        (∃ s, p.getField "prompt" = some (Json.str s)) ∧
        p.getField "messages" = none) := by
  refine ⟨textPayloadOf maxTokens i ep, generateTextTraffic_trace t maxTokens i ep, ?_⟩
  by_cases h : ep.has_chat_template <;>
    simp only [h, if_true, if_false, Bool.false_eq_true, textPayloadOf]
  · obtain ⟨m, hm, hrole⟩ := chatPrompt_singleton_user i
    refine ⟨⟨m, ?_, hrole⟩, (chatPayload_fields _ _ _).2⟩
    rw [(chatPayload_fields _ _ _).1, hm]
  · exact ⟨⟨_, (completionPayload_fields _ _ _).1⟩, (completionPayload_fields _ _ _).2⟩

/-- Concrete instance: shape of the request of a chat-template endpoint. -/
theorem text_request_shape_witness :
    ∃ p, (generateTextTraffic okTransport 50 0 textEndpoint).2 =
        [⟨rsplitTwoHead textEndpoint.url, p⟩] ∧
      (if textEndpoint.has_chat_template then
        (∃ m, p.getField "messages" = some (Json.arr [m]) ∧
           m.getField "role" = some (Json.str "user")) ∧
        p.getField "prompt" = none
       else
        (∃ s, p.getField "prompt" = some (Json.str s)) ∧
        p.getField "messages" = none) :=
  text_request_shape okTransport 50 0 textEndpoint

/-- Every VLM prompt sample belongs to the fixed 3-item prompt set. -/
theorem vlmPrompt_mem (i : Nat) :
    VLM_PROMPTS.getD (i % VLM_PROMPTS.length) "" ∈ VLM_PROMPTS := by
  have h3 : VLM_PROMPTS.length = 3 := rfl
  rw [h3]
  rcases (show i % 3 = 0 ∨ i % 3 = 1 ∨ i % 3 = 2 by omega) with h | h | h <;>
    rw [h] <;> decide

/-- A VLM dispatch sends exactly one request, to the two-segment-stripped
base URL, with the message list selected by the model name. -/
theorem generateVlmTraffic_trace (t : Transport) (maxTokens i : Nat) (ep : EndpointInfo) :
    (generateVlmTraffic t maxTokens i ep).2 =
      [⟨rsplitTwoHead ep.url, vlmPayloadOf maxTokens i ep⟩] := by
  unfold generateVlmTraffic vlmPayloadOf vlmMessagesOf
  split <;> dsimp only <;> split <;> rfl

/-- C5: a vision-language or object-detection dispatch sends a single
user-role message whose content is exactly one image part when the
lowercased model name contains `"parse"`, and exactly one image part
followed by one text part drawn from the fixed 3-item prompt set
otherwise. -/
theorem vlm_content_shape (t : Transport) (maxTokens i : Nat) (ep : EndpointInfo)
    (htask : strToUpper ep.task = "IMAGE_TEXT_TO_TEXT" ∨
             strToUpper ep.task = "OBJECT_DETECTION") :
    ∃ p, (generateTrafficForEndpoint t maxTokens i ep).2 =
        [⟨rsplitTwoHead ep.url, p⟩] ∧
      ∃ m, p.getField "messages" = some (Json.arr [m]) ∧
        m.getField "role" = some (Json.str "user") ∧
        (if strContainsSub (strToLower ep.model_name) "parse" then
          m.getField "content" = some (Json.arr [imageContentPart])
         else
          ∃ q, q ∈ VLM_PROMPTS ∧
            m.getField "content" = some (Json.arr [imageContentPart, textContentPart q])) := by
  rw [dispatch_vlm_route t maxTokens i ep htask]
  refine ⟨vlmPayloadOf maxTokens i ep, generateVlmTraffic_trace t maxTokens i ep, ?_⟩
  by_cases hp : strContainsSub (strToLower ep.model_name) "parse" <;>
    simp only [hp, if_true, if_false, Bool.false_eq_true, vlmPayloadOf, vlmMessagesOf]
  · exact ⟨_, rfl, rfl, rfl⟩
  · exact ⟨_, rfl, rfl, VLM_PROMPTS.getD (i % VLM_PROMPTS.length) "", vlmPrompt_mem i, rfl⟩

/-- Concrete instance: shape of the request of a non-parse VLM endpoint. -/
theorem vlm_content_shape_witness :
    ∃ p, (generateTrafficForEndpoint okTransport 50 0 vlmEndpoint).2 =
        [⟨rsplitTwoHead vlmEndpoint.url, p⟩] ∧
      ∃ m, p.getField "messages" = some (Json.arr [m]) ∧
        m.getField "role" = some (Json.str "user") ∧
        (if strContainsSub (strToLower vlmEndpoint.model_name) "parse" then
          m.getField "content" = some (Json.arr [imageContentPart])
         else
          ∃ q, q ∈ VLM_PROMPTS ∧
            m.getField "content" = some (Json.arr [imageContentPart, textContentPart q])) :=
  vlm_content_shape okTransport 50 0 vlmEndpoint (Or.inl rfl)

/-- When the URL has at least three slash-separated segments, Python's
`url.rsplit("/", 2)[0]` is the URL with its last two segments removed. -/
theorem rsplit_eq_dropLastTwo (s : String) (h : 3 ≤ (splitSlash s).length) :
    rsplitTwoHead s = dropLastTwoSegments s := by
  unfold rsplitTwoHead dropLastTwoSegments
  rw [show max 1 ((splitSlash s).length - 2) = (splitSlash s).length - 2 by omega]

/-- An embedding dispatch sends exactly one request, to the descriptor's
URL unchanged. -/
theorem generateEmbeddingTraffic_trace (t : Transport) (i : Nat) (ep : EndpointInfo) :
    (generateEmbeddingTraffic t i ep).2 = [⟨ep.url, embedPayloadOf i ep⟩] := by
  rw [generateEmbeddingTraffic_eq]
  rcases t.post ep.url (embedPayloadOf i ep) with _ | ⟨status, _ | ⟨_ | (_ | ⟨d, ds⟩)⟩⟩
  · rfl
  all_goals dsimp only; split <;> rfl

/-- Every request a rerank dispatch sends targets the descriptor's URL. -/
theorem generateRerankTraffic_urls (t : Transport) (i : Nat) (ep : EndpointInfo) :
    ∀ r ∈ (generateRerankTraffic t i ep).2, r.url = ep.url := by
  rw [generateRerankTraffic_eq]
  rcases t.post ep.url (rerankPrimaryOf i ep) with _ | r1
  · intro r hr
    simp only [List.mem_singleton] at hr
    subst hr; rfl
  · dsimp only
    split
    · intro r hr
      simp only [List.mem_singleton] at hr
      subst hr; rfl
    · rcases t.post ep.url (rerankAltOf i ep) with _ | r2 <;>
        · intro r hr
          simp only [List.mem_cons, List.not_mem_nil, or_false] at hr
          rcases hr with hr | hr <;> subst hr <;> rfl

/-- C9: a text-generation or vision-language dispatch addresses its client
at the descriptor's URL with the last two slash-separated segments removed,
while an EMBED or RANK dispatch POSTs to the descriptor's URL unchanged. -/
theorem request_target_rule (t : Transport) (maxTokens i : Nat) (ep : EndpointInfo)
    (h3 : 3 ≤ (splitSlash ep.url).length) :
    ((strToUpper ep.task = "TEXT_GENERATION" ∨
      strToUpper ep.task = "TEXT_TO_TEXT_GENERATION" ∨
      strToUpper ep.task = "IMAGE_TEXT_TO_TEXT" ∨
      strToUpper ep.task = "OBJECT_DETECTION") →
      ∀ r ∈ (generateTrafficForEndpoint t maxTokens i ep).2,
        r.url = dropLastTwoSegments ep.url) ∧
    ((strToUpper ep.task = "EMBED" ∨ strToUpper ep.task = "RANK") →
      ∀ r ∈ (generateTrafficForEndpoint t maxTokens i ep).2, r.url = ep.url) := by
  have hbase := rsplit_eq_dropLastTwo ep.url h3
  constructor
  · intro h
    have hq : (generateTrafficForEndpoint t maxTokens i ep).2 =
        [⟨rsplitTwoHead ep.url, textPayloadOf maxTokens i ep⟩] ∨
        (generateTrafficForEndpoint t maxTokens i ep).2 =
        [⟨rsplitTwoHead ep.url, vlmPayloadOf maxTokens i ep⟩] := by
      rcases h with h | h | h | h
      · rw [dispatch_text_route t maxTokens i ep (Or.inl h)]
        exact Or.inl (generateTextTraffic_trace t maxTokens i ep)
      · rw [dispatch_text_route t maxTokens i ep (Or.inr h)]
        exact Or.inl (generateTextTraffic_trace t maxTokens i ep)
      · rw [dispatch_vlm_route t maxTokens i ep (Or.inl h)]
        exact Or.inr (generateVlmTraffic_trace t maxTokens i ep)
      · rw [dispatch_vlm_route t maxTokens i ep (Or.inr h)]
        exact Or.inr (generateVlmTraffic_trace t maxTokens i ep)
    intro r hr
    rcases hq with hq | hq <;> rw [hq] at hr <;>
      simp only [List.mem_singleton] at hr <;> subst hr <;> exact hbase
  · intro h r hr
    rcases h with h | h
    · rw [dispatch_embed_route t maxTokens i ep h,
        generateEmbeddingTraffic_trace t i ep] at hr
      simp only [List.mem_singleton] at hr
      subst hr; rfl
    · rw [dispatch_rank_route t maxTokens i ep h] at hr
      exact generateRerankTraffic_urls t i ep r hr

/-- Concrete instance: the text endpoint's client is addressed at its URL
with `/chat/completions` stripped, and the embedding endpoint is POSTed at
its URL unchanged. -/
theorem request_target_rule_witness :
    (∀ r ∈ (generateTrafficForEndpoint okTransport 50 0 textEndpoint).2,
      r.url = dropLastTwoSegments textEndpoint.url) ∧
    (∀ r ∈ (generateTrafficForEndpoint okTransport 50 0 embedEndpoint).2,
      r.url = embedEndpoint.url) :=
  ⟨(request_target_rule okTransport 50 0 textEndpoint (by decide)).1 (Or.inl rfl),
   (request_target_rule okTransport 50 0 embedEndpoint (by decide)).2 (Or.inl rfl)⟩

end TrafficGen
